import Mathlib

/-!
Verification development for the forex position-size calculator
(munim/forex-position-size-calculator).

The repository contains two variants of the same React component:
`src/App.js` (the current, permissive variant, called variant A below) and
an earlier variant (`part_001`, called variant B below).  The interesting
logic is a pipeline of JavaScript regex extractions over the raw signal
text followed by a rational position-size computation:

  parseAccountBalance  : balance text -> (amount, currency)
  parseInputText       : signal text  -> (base, quote, pips)
  calculatePips        : pip distance from entry/stop-loss prices
  calculateLotSize     : risk amount, pip value, conversion rate, lot size

Modelling conventions:
  * Strings are read as `List Char`; regex matching is embedded as
    backtracking matchers `List Char → List (List Char)` returning the
    possible remainders in the exact priority order the JavaScript regex
    engine explores them (greedy quantifiers first, alternatives in
    written order, leftmost match position wins).
  * JavaScript numbers are rationals; the non-finite values NaN and
    ±Infinity that the code can produce (e.g. division by a zero pip
    distance, or `parseFloat` of a non-numeric risk field) are modelled
    by `none` in `Option ℚ`.  `jmul`/`jdiv` propagate `none` exactly as
    JS arithmetic propagates non-finite values into the displayed result.
  * `toFixed(4)` followed by `parseFloat` is modelled by `round4`
    (round half towards +∞ at the fourth decimal, as specified for
    `Number.prototype.toFixed`).
  * The Coinbase exchange-rate response is modelled as an association
    list `String → List (String × ℚ)`: the function gives, for the
    fetched quote currency, the rate table of the response.  The JS
    fallback `rates[acct] || 1` fires when the key is absent
    (`undefined`); rate values arrive as non-empty strings, which are
    truthy, so a present entry is always used.
-/

deriving instance DecidableEq for Except

namespace Forex

attribute [local semireducible] Rat.mul Rat.add Rat.sub Rat.inv Rat.ofScientific

abbrev Chars := List Char

/-- JavaScript `\s` (restricted to the ASCII whitespace actually relevant
to the signal texts). -/
def isWS (c : Char) : Bool :=
  c = ' ' || c = '\t' || c = '\n' || c = '\r'

/-- The character class `[\s:]` used between keywords and numbers. -/
def isSepChar (c : Char) : Bool :=
  isWS c || c = ':'

/-- The character class `[A-Za-z]`. -/
def isAlphaChar (c : Char) : Bool :=
  ('a' ≤ c && c ≤ 'z') || ('A' ≤ c && c ≤ 'Z')

/-- The character class `[0-9]`, i.e. `\d`. -/
def isDigitChar (c : Char) : Bool :=
  '0' ≤ c && c ≤ '9'

/-- Numeric value of a digit string, e.g. `"1024"` to `1024`. -/
def natValOf (ds : Chars) : Nat :=
  ds.foldl (fun a c => a * 10 + (c.toNat - 48)) 0

/-- Value of a fractional digit string, e.g. `"048"` to `48/1000`. -/
def fracValOf (ds : Chars) : ℚ :=
  (natValOf ds : ℚ) / (10 ^ ds.length)

/-- Greedy match of the regex `\d+\.?\d*` (the number shape every capture
group in the source uses), returning the parsed value (as `parseFloat`
would read the captured text) and the remainder.  Greediness is exact
here: each capture of this shape sits at the end of its alternative, so
the first, maximal parse is the one the JS engine reports. -/
def matchNumber (l : Chars) : Option (ℚ × Chars) :=
  let ds := l.takeWhile isDigitChar
  if ds = [] then none
  else
    match l.dropWhile isDigitChar with
    | '.' :: r2 =>
        some ((natValOf ds : ℚ) + fracValOf (r2.takeWhile isDigitChar),
              r2.dropWhile isDigitChar)
    | r1 => some ((natValOf ds : ℚ), r1)

/-- Value of a consumed `\d+\.?\d*` prefix (used when the consumed text is
recovered from a backtracking split). -/
def numValOf (l : Chars) : ℚ :=
  let ds := l.takeWhile isDigitChar
  match l.dropWhile isDigitChar with
  | '.' :: r2 => (natValOf ds : ℚ) + fracValOf (r2.takeWhile isDigitChar)
  | _ => (natValOf ds : ℚ)

/-!  Backtracking regex combinators.  A matcher sends the input to the
list of possible remainders, ordered the way the JS engine tries them. -/

/-- Matchers: input remainder to candidate remainders in priority order. -/
abbrev M := Chars → List Chars

/-- Sequencing of two regex fragments. -/
def mseq (a b : M) : M := fun l => (a l).flatMap b

/-- Alternation `a|b` (alternatives in written order). -/
def malt (a b : M) : M := fun l => a l ++ b l

/-- The optional quantifier `(?:a)?` (greedy: with `a` first). -/
def mopt (a : M) : M := fun l => a l ++ [l]

/-- Case-insensitive literal match; the pattern is given lowercase,
mirroring the `/i` flag on every regex in the source. -/
def matchCI : Chars → Chars → Option Chars
  | [], l => some l
  | _ :: _, [] => none
  | p :: ps, c :: cs => if c.toLower = p then matchCI ps cs else none

/-- Literal regex text (case-insensitive). -/
def mstr (s : String) : M := fun l =>
  match matchCI s.toList l with
  | some r => [r]
  | none => []

/-- Greedy `p*` over a character class, with all backtracking splits
(maximal consumption first). -/
def mstar (p : Char → Bool) : M := fun l =>
  let k := (l.takeWhile p).length
  (List.range (k + 1)).reverse.map fun i => l.drop i

/-- Greedy `p+` over a character class (at least one character). -/
def mplus (p : Char → Bool) : M := fun l =>
  let k := (l.takeWhile p).length
  (List.range k).reverse.map fun i => l.drop (i + 1)

/-- The fragment `\s*`. -/
def mws0 : M := mstar isWS

/-- The fragment `\s+`. -/
def mws1 : M := mplus isWS

/-- The fragment `[\s:]*`. -/
def msep : M := mstar isSepChar

/-- Exactly `n` letters, `[A-Za-z]{n}`, returning the consumed group and
the remainder. -/
def matchAlphaN : Nat → Chars → Option (Chars × Chars)
  | 0, l => some ([], l)
  | _ + 1, [] => none
  | n + 1, c :: cs =>
      if isAlphaChar c then (matchAlphaN n cs).map fun p => (c :: p.1, p.2)
      else none

/-- `[A-Za-z]{n}` as a plain matcher. -/
def malphaN (n : Nat) : M := fun l =>
  match matchAlphaN n l with
  | some p => [p.2]
  | none => []

/-- The fragment `\d+\.?\d*` as a consuming matcher (all backtracking
splits, greedy first). -/
def mnumM : M :=
  mseq (mplus isDigitChar) (mseq (mopt (mstr ".")) (mstar isDigitChar))

/-- Leftmost-match search: JS `text.match(re)` tries the pattern at each
position from the left and reports the first success. -/
def scanFirst (f : Chars → Option α) : Chars → Option α
  | [] => none
  | c :: cs =>
      match f (c :: cs) with
      | some v => some v
      | none => scanFirst f cs

/-- Finish an alternative of the shape `...prefix...(\d+\.?\d*)`: try the
candidate remainders of the prefix in backtracking order and capture the
first number that matches. -/
def firstNumAfter (rems : List Chars) : Option ℚ :=
  rems.findSome? fun r => (matchNumber r).map Prod.fst

/-!  Instrument extraction.

Both variants use `/([A-Za-z]{3})([A-Za-z]{3})|([A-Za-z]{6})/i`: at each
position, first the `3+3` alternative with two groups, then the single
six-letter group split into halves.  The base and quote codes are
uppercased. -/

/-- Uppercased string of a character group. -/
def upStr (l : Chars) : String := String.mk (l.map Char.toUpper)

/-- Second alternative `([A-Za-z]{6})`: base and quote are
`match[3].substring(0,3)` and `match[3].substring(3)`, uppercased. -/
def instrAltTwo (l : Chars) : Option (String × String) :=
  match matchAlphaN 6 l with
  | some (g3, _) => some (upStr (g3.take 3), upStr (g3.drop 3))
  | none => none

/-- The instrument regex tried at one position. -/
def instrAt (l : Chars) : Option (String × String) :=
  match matchAlphaN 3 l with
  | some (g1, r1) =>
      match matchAlphaN 3 r1 with
      | some (g2, _) => some (upStr g1, upStr g2)
      | none => instrAltTwo l
  | none => instrAltTwo l

/-!  Entry-price extraction.

Variant A (`src/App.js`):
  `/(?:Enter(?:ed)?(?:\s+(?:at|now))?|Entry(?:\s*\((?:sell|buy)\s*limit\))?
    |Buy|Sell|Long|Short)[\s:]*(\d+\.?\d*)
    |(?:Buy|Sell|Long|Short)\s+[A-Za-z]{6}\s+(\d+\.?\d*)/i`

Variant B (`part_001`):
  `/(?:Enter|Entry|Entered at|Buy|Sell|Entry\s*\((?:sell|buy)\s*limit\))
    [\s:]*(\d+\.?\d*)|(?:Buy|Sell)\s+[A-Za-z]{6}\s+(\d+\.?\d*)/i` -/

/-- The fragment `Enter(?:ed)?(?:\s+(?:at|now))?` of variant A. -/
def enterFamilyA : M :=
  mseq (mstr "enter")
    (mseq (mopt (mstr "ed"))
      (mopt (mseq mws1 (malt (mstr "at") (mstr "now")))))

/-- The fragment `\s*\((?:sell|buy)\s*limit\)`. -/
def limitTail : M :=
  mseq mws0
    (mseq (mstr "(")
      (mseq (malt (mstr "sell") (mstr "buy"))
        (mseq mws0 (mseq (mstr "limit") (mstr ")")))))

/-- The fragment `Entry(?:\s*\((?:sell|buy)\s*limit\))?` of variant A. -/
def entryFamilyA : M := mseq (mstr "entry") (mopt limitTail)

/-- The keyword alternation of variant A's first alternative. -/
def entryKwA : M :=
  malt enterFamilyA
    (malt entryFamilyA
      (malt (mstr "buy")
        (malt (mstr "sell")
          (malt (mstr "long") (mstr "short")))))

/-- The action keywords `Buy|Sell|Long|Short` of variant A's second
alternative. -/
def actionKwA : M :=
  malt (mstr "buy") (malt (mstr "sell") (malt (mstr "long") (mstr "short")))

/-- Variant A's opening-amount regex tried at one position: the keyword
alternative first, then `action \s+ [A-Za-z]{6} \s+ number`. -/
def entryAtA (l : Chars) : Option ℚ :=
  match firstNumAfter (mseq entryKwA msep l) with
  | some v => some v
  | none => firstNumAfter (mseq actionKwA (mseq mws1 (mseq (malphaN 6) mws1)) l)

/-- The keyword alternation of variant B's first alternative; note the
literal single space in `Entered at`, the absence of `Long`/`Short`, and
the non-optional `(…limit)` in the last alternative. -/
def entryKwB : M :=
  malt (mstr "enter")
    (malt (mstr "entry")
      (malt (mstr "entered at")
        (malt (mstr "buy")
          (malt (mstr "sell") (mseq (mstr "entry") limitTail)))))

/-- The action keywords `Buy|Sell` of variant B's second alternative. -/
def actionKwB : M := malt (mstr "buy") (mstr "sell")

/-- Variant B's opening-amount regex tried at one position. -/
def entryAtB (l : Chars) : Option ℚ :=
  match firstNumAfter (mseq entryKwB msep l) with
  | some v => some v
  | none => firstNumAfter (mseq actionKwB (mseq mws1 (mseq (malphaN 6) mws1)) l)

/-!  Stop-loss and explicit-pip extraction (identical in both variants). -/

/-- The fragment `(?:SL|Stop Loss)` (with the literal space). -/
def slKw : M := malt (mstr "sl") (mstr "stop loss")

/-- The stop-loss regex `(?:SL|Stop Loss)[\s:]*(\d+\.?\d*)` at one
position. -/
def slAt (l : Chars) : Option ℚ := firstNumAfter (mseq slKw msep l)

/-- Captured `(\d+)` with all backtracking splits (greedy first) and the
integer value of the consumed digits. -/
def digitSplits (l : Chars) : List (ℚ × Chars) :=
  (mplus isDigitChar l).map fun r =>
    ((natValOf (l.take (l.length - r.length)) : ℚ), r)

/-- The fragment `\s*(?:pips?)?` after the captured pip count. -/
def pipsTail : M :=
  mseq mws0 (mopt (mseq (mstr "pip") (mopt (mstr "s"))))

/-- The explicit-pip regex
`(?:SL|Stop Loss)[\s:]*\d+\.?\d*\s*\((\d+)\s*(?:pips?)?\)` at one
position. -/
def pipsAt (l : Chars) : Option ℚ :=
  (mseq slKw (mseq msep (mseq mnumM (mseq mws0 (mstr "(")))) l).findSome?
    fun r =>
      (digitSplits r).findSome? fun p =>
        (pipsTail p.2).findSome? fun r3 =>
          match r3 with
          | ')' :: _ => some p.1
          | _ => none

/-!  Account-balance parsing. -/

/-- Variant A's balance regex `/(\d+\.?\d*)\s*([a-zA-Z]{3})?/i` at one
position.  The trailing parts of the pattern are all optional, so the
greedy parses of the number and of `\s*` are never backtracked (no
required fragment follows, and a returned whitespace character could
never start the three-letter group). -/
def balanceAtA (l : Chars) : Option (ℚ × String) :=
  match matchNumber l with
  | none => none
  | some (v, r) =>
      match matchAlphaN 3 (r.dropWhile isWS) with
      | some (g, _) => some (v, upStr g)
      | none => some (v, "USD")

/-- Variant B's balance regex `/(\d+\.?\d*)\s*([a-zA-Z]{3})/i` at one
position: the three-letter code is required, so the number is tried with
all its backtracking splits. -/
def balanceAtB (l : Chars) : Option (ℚ × String) :=
  (mnumM l).findSome? fun r =>
    (matchAlphaN 3 (r.dropWhile isWS)).map fun p =>
      (numValOf (l.take (l.length - r.length)), upStr p.1)

/-- `parseAccountBalance` of `src/App.js`: currency defaults to `"USD"`
when the three-letter code is absent. -/
def parseAccountBalanceA (input : String) : Option (ℚ × String) :=
  scanFirst balanceAtA input.toList

/-- `parseAccountBalance` of `part_001`: parsing fails when the
three-letter code is absent. -/
def parseAccountBalanceB (input : String) : Option (ℚ × String) :=
  scanFirst balanceAtB input.toList

/-!  Pip distance and pip value. -/

/-- `calculatePips` of `src/App.js` (with the JPY-as-base special
case). -/
def calculatePipsA (base quote : String) (openingAmount stopLoss : ℚ) : ℚ :=
  if base = "XAU" ∨ quote = "XAU" then |openingAmount - stopLoss| / (0.01 : ℚ)
  else if quote = "JPY" then |openingAmount - stopLoss| / (0.01 : ℚ)
  else if base = "JPY" then |openingAmount - stopLoss| / (0.000001 : ℚ)
  else |openingAmount - stopLoss| / (0.0001 : ℚ)

/-- `calculatePips` of `part_001` (no JPY-as-base case). -/
def calculatePipsB (base quote : String) (openingAmount stopLoss : ℚ) : ℚ :=
  if base = "XAU" ∨ quote = "XAU" then |openingAmount - stopLoss| / (0.01 : ℚ)
  else if quote = "JPY" then |openingAmount - stopLoss| / (0.01 : ℚ)
  else |openingAmount - stopLoss| / (0.0001 : ℚ)

/-- The `pipValueQuote` chain of `src/App.js` lines 178-187. -/
def pipValueQuoteA (base quote : String) : ℚ :=
  if base = "XAU" ∨ quote = "XAU" then 0.01
  else if quote = "JPY" then 0.01
  else if base = "JPY" then 0.000001
  else 0.0001

/-- Both `lotSize` and `positionSizeUnits` branch on
`base === "XAU" || quote === "XAU"` with 100 (gold ounces) against
100000 (standard forex lot). -/
def contractSize (base quote : String) : ℚ :=
  if base = "XAU" ∨ quote = "XAU" then 100 else 100000

/-!  The signal-parsing entry point `parseInputText`. -/

/-- The error notifications the component raises via `alert`. -/
inductive CalcError where
  | invalidInstrument
  | invalidEntryPrice
  | invalidStopLoss
  | invalidAccountBalance
deriving DecidableEq

/-- JavaScript `pips || calculatedPips`: the explicitly annotated pip
count is used unless it is absent (`null`) or zero (`0` is falsy). -/
def jsOrQ : Option ℚ → ℚ → ℚ
  | some x, d => if x = 0 then d else x
  | none, d => d

/-- `parseInputText` of `src/App.js` up to (and including) the choice of
the pip count handed to `calculateLotSize`. -/
def parseSignalA (text : String) : Except CalcError (String × String × ℚ) :=
  let cs := text.toList
  match scanFirst instrAt cs with
  | none => .error .invalidInstrument
  | some (b, q) =>
      match scanFirst entryAtA cs with
      | none => .error .invalidEntryPrice
      | some entry =>
          match scanFirst slAt cs with
          | none => .error .invalidStopLoss
          | some sl =>
              let explicitPips := scanFirst pipsAt cs
              .ok (b, q, jsOrQ explicitPips (calculatePipsA b q entry sl))

/-- `parseInputText` of `part_001`. -/
def parseSignalB (text : String) : Except CalcError (String × String × ℚ) :=
  let cs := text.toList
  match scanFirst instrAt cs with
  | none => .error .invalidInstrument
  | some (b, q) =>
      match scanFirst entryAtB cs with
      | none => .error .invalidEntryPrice
      | some entry =>
          match scanFirst slAt cs with
          | none => .error .invalidStopLoss
          | some sl =>
              let explicitPips := scanFirst pipsAt cs
              .ok (b, q, jsOrQ explicitPips (calculatePipsB b q entry sl))

/-!  The position-size computation `calculateLotSize`. -/

/-- Simplified model of JavaScript `parseFloat`: optional leading
whitespace and sign, then a decimal literal `\d+(\.\d*)?` or `\.\d+`
(exponents and `Infinity` are not used by the risk-percentage field).
`none` models `NaN`. -/
def parseFloatCore (l : Chars) : Option ℚ :=
  match l with
  | '.' :: r =>
      let fs := r.takeWhile isDigitChar
      if fs = [] then none else some (fracValOf fs)
  | _ => (matchNumber l).map Prod.fst

/-- JavaScript `parseFloat` on a whole input string. -/
def parseFloatJS (s : String) : Option ℚ :=
  match s.toList.dropWhile isWS with
  | '-' :: r => (parseFloatCore r).map Neg.neg
  | '+' :: r => parseFloatCore r
  | l => parseFloatCore l

/-- JS multiplication with non-finite propagation. -/
def jmul : Option ℚ → Option ℚ → Option ℚ
  | some a, some b => some (a * b)
  | _, _ => none

/-- JS division: a zero divisor yields Infinity or NaN, i.e. `none`. -/
def jdiv : Option ℚ → Option ℚ → Option ℚ
  | some a, some b => if b = 0 then none else some (a / b)
  | _, _ => none

/-- `toFixed(4)` re-read by `parseFloat`: round half towards +∞ at the
fourth decimal. -/
def round4 (q : ℚ) : ℚ := ((round (q * 10000) : ℤ) : ℚ) / 10000

/-- `toFixed(4)` on a possibly non-finite value. -/
def jround4 (q : Option ℚ) : Option ℚ := q.map round4

/-- `quoteToAccountRate`: 1 without a lookup when the quote currency
equals the account currency; otherwise the fetched rate table is read at
the account currency and a missing entry falls back to 1. -/
def quoteToAccountRate (rates : String → List (String × ℚ))
    (quote acct : String) : ℚ :=
  if quote = acct then 1
  else
    match List.lookup acct (rates quote) with
    | some r => r
    | none => 1

/-- The numeric content of the `result` record handed to `setResult`
(locale formatting of the display strings is dropped; `amountAtRisk`
keeps its unrounded value). -/
structure CalcResult where
  riskAmount : Option ℚ
  lotSize : Option ℚ
  positionSizeUnits : Option ℚ
  standardLots : Option ℚ
  miniLots : Option ℚ
  microLots : Option ℚ
  accountCurrency : String
deriving DecidableEq

/-- `calculateLotSize` of `src/App.js`, parameterized by the
exchange-rate environment.  The function returns `none` exactly when the
account balance fails to parse (the `alert` early return); every other
input produces a result record. -/
def calculateLotSizeA (rates : String → List (String × ℚ))
    (balanceInput riskInput : String) (base quote : String) (pips : ℚ) :
    Option CalcResult :=
  match parseAccountBalanceA balanceInput with
  | none => none
  | some (bal, acct) =>
      let riskAmount := jdiv (jmul (some bal) (parseFloatJS riskInput)) (some 100)
      let rate := quoteToAccountRate rates quote acct
      let pipValueAccount := pipValueQuoteA base quote * rate
      let contract := contractSize base quote
      let lot := jdiv riskAmount (some (pips * pipValueAccount * contract))
      some
        { riskAmount := riskAmount
          lotSize := lot
          positionSizeUnits := jmul lot (some contract)
          standardLots := jround4 lot
          miniLots := jround4 (jmul lot (some 10))
          microLots := jround4 (jmul lot (some 100))
          accountCurrency := acct }

/-- The whole variant-A pipeline: `parseInputText` followed by
`calculateLotSize`. -/
def runCalcA (rates : String → List (String × ℚ))
    (balanceInput riskInput signalText : String) :
    Except CalcError CalcResult :=
  match parseSignalA signalText with
  | .error e => .error e
  | .ok (b, q, pips) =>
      match calculateLotSizeA rates balanceInput riskInput b q pips with
      | none => .error .invalidAccountBalance
      | some r => .ok r

/-!  Definitions that follow the wording of the specification claims
(clearly separated from the source-translated definitions above; each is
compared against the code in the theorems below). -/

/-- Written from the claim: the pip-unit rule table for the `src/App.js`
variant, first matching rule wins (gold, JPY quote, JPY base,
default). -/
def pipUnitSpecA (base quote : String) : ℚ :=
  if base = "XAU" ∨ quote = "XAU" then 0.01
  else if quote = "JPY" then 0.01
  else if base = "JPY" then 0.000001
  else 0.0001

/-- Written from the claim: the pip-unit rule table for the `part_001`
variant (no JPY-as-base row). -/
def pipUnitSpecB (base quote : String) : ℚ :=
  if base = "XAU" ∨ quote = "XAU" then 0.01
  else if quote = "JPY" then 0.01
  else 0.0001

/-- Maximal alphabetic runs of a text, in order (the "tokens" of the
instrument-extraction claim). -/
def alphaTokens (l : Chars) : List Chars :=
  (l.splitOnP fun c => !isAlphaChar c).filter fun t => !t.isEmpty

/-- Written from the claim: two consecutive three-letter alphabetic
tokens occur in the token list. -/
def twoAdjacentThree : List Chars → Bool
  | a :: b :: r => (a.length = 3 && b.length = 3) || twoAdjacentThree (b :: r)
  | _ => false

/-- Written from the claim: the text contains either two consecutive
3-letter alphabetic tokens or one contiguous 6-letter alphabetic
token. -/
def claimInstrShape (text : String) : Bool :=
  twoAdjacentThree (alphaTokens text.toList) ||
    (alphaTokens text.toList).any fun t => t.length = 6

/-- Six alphabetic characters start at this position. -/
def sixAlphaAt (l : Chars) : Bool :=
  decide ((l.take 6).length = 6) && (l.take 6).all isAlphaChar

/-- The text contains six consecutive alphabetic characters somewhere. -/
def containsSixAlpha : Chars → Bool
  | [] => false
  | c :: cs => sixAlphaAt (c :: cs) || containsSixAlpha cs

/-- Written from the claim: the entry-price keyword list of C6 ("Enter",
"Entered at", "Entered", "Entry", "Entry (sell limit)",
"Entry (buy limit)", "Buy", "Sell", "Long", "Short"). -/
def claimEntryKws : List String :=
  ["enter", "entered at", "entered", "entry", "entry (sell limit)",
   "entry (buy limit)", "buy", "sell", "long", "short"]

/-- Written from the claim: the action keywords of C6's alternate form
("Buy", "Sell", "Long", "Short" followed by a 6-letter instrument and a
decimal). -/
def claimActionKws : List String := ["buy", "sell", "long", "short"]

/-- Written from the claim: a decimal number immediately preceded
(case-insensitively, with optional colon/whitespace separators) by one
of the claimed keywords, or the claimed alternate form, tried at one
position. -/
def claimEntryAt (l : Chars) : Option ℚ :=
  match claimEntryKws.findSome? fun s => firstNumAfter (mseq (mstr s) msep l) with
  | some v => some v
  | none =>
      claimActionKws.findSome? fun s =>
        firstNumAfter (mseq (mstr s) (mseq mws1 (mseq (malphaN 6) mws1)) l)

/-- Written from the claim: C6's claimed entry-price extraction over the
whole text. -/
def claimEntryExtract (text : String) : Option ℚ :=
  scanFirst claimEntryAt text.toList

/-!  Helper lemmas about the scanning combinators. -/

theorem scanFirst_map_eq (f : Chars → Option α) (g : α → β) :
    ∀ l : Chars, scanFirst (fun r => (f r).map g) l = (scanFirst f l).map g := by
  intro l
  induction l with
  | nil => rfl
  | cons c cs ih =>
      simp only [scanFirst]
      cases h : f (c :: cs) with
      | some v => simp [h]
      | none => simp [h, ih]

theorem scanFirst_congr {f g : Chars → Option α} (h : ∀ l, f l = g l) :
    ∀ l : Chars, scanFirst f l = scanFirst g l := by
  intro l
  induction l with
  | nil => rfl
  | cons c cs ih => simp only [scanFirst, h, ih]

theorem matchAlphaN_length :
    ∀ (n : Nat) (l g r : Chars), matchAlphaN n l = some (g, r) → g.length = n := by
  intro n
  induction n with
  | zero => intro l g r h; cases h; rfl
  | succ m ih =>
      intro l g r h
      cases l with
      | nil => cases h
      | cons c cs =>
          simp only [matchAlphaN] at h
          by_cases hc : isAlphaChar c = true
          · rw [if_pos hc] at h
            cases hm : matchAlphaN m cs with
            | none => rw [hm] at h; cases h
            | some p =>
                rw [hm] at h
                cases h
                simpa using ih cs p.1 p.2 (by rw [hm])
          · rw [if_neg hc] at h; cases h

theorem matchAlphaN_add (m n : Nat) :
    ∀ l : Chars,
      matchAlphaN (m + n) l =
        (matchAlphaN m l).bind fun p =>
          (matchAlphaN n p.2).map fun q => (p.1 ++ q.1, q.2) := by
  induction m with
  | zero =>
      intro l
      simp only [Nat.zero_add, matchAlphaN, Option.bind]
      cases h : matchAlphaN n l with
      | none => simp
      | some q => simp
  | succ k ih =>
      intro l
      cases l with
      | nil =>
          have : k + 1 + n = (k + n) + 1 := by omega
          rw [this]
          rfl
      | cons c cs =>
          have hs : k + 1 + n = (k + n) + 1 := by omega
          rw [hs]
          simp only [matchAlphaN]
          by_cases hc : isAlphaChar c = true
          · rw [if_pos hc, if_pos hc, ih cs]
            cases h1 : matchAlphaN k cs with
            | none => simp
            | some p =>
                cases h2 : matchAlphaN n p.2 with
                | none => simp [h2, Function.comp]
                | some q => simp [h2, Function.comp]
          · rw [if_neg hc, if_neg hc]
            rfl

/-!  C1.  The specification demands that a zero pip distance (entry price
equal to the stop loss, no explicit pip annotation) raise
`InvalidStopLossDistance` and never reach the lot-size division.  The
code has no such guard: `calculatePips` returns 0, `calculateLotSize` is
called with `pips = 0`, and `riskAmount / (0 × …)` produces a JavaScript
Infinity (modelled by `none`) inside a displayed result record. -/

/-- Claim C1, evaluated at the failing input: with balance `"1000 USD"`,
risk `"2"` and signal `"Buy EURUSD 1.05000, SL 1.05000"` the pipeline
parses a pip count of 0, raises no error, and hands a result to
`setResult` whose lot-size fields are non-finite — `lotSize` is never
guarded, contradicting the claim. -/
theorem C1_zero_pip_distance_not_guarded :
    parseSignalA "Buy EURUSD 1.05000, SL 1.05000" = .ok ("EUR", "USD", 0) ∧
    runCalcA (fun _ => []) "1000 USD" "2" "Buy EURUSD 1.05000, SL 1.05000" =
      .ok { riskAmount := some 20, lotSize := none, positionSizeUnits := none,
            standardLots := none, miniLots := none, microLots := none,
            accountCurrency := "USD" } := by
  constructor
  · decide
  · decide

/-!  C4.  The pip-distance computation of both variants against the
claimed rule table. -/

/-- Claim C4: for every instrument and pair of prices, `calculatePips`
equals `|entry − stopLoss| / unit` with the unit drawn from the claimed
priority table — the `src/App.js` variant with the JPY-as-base row
(0.000001), the `part_001` variant without it. -/
theorem C4_pip_unit_table (base quote : String) (entry stopLoss : ℚ) :
    calculatePipsA base quote entry stopLoss =
      |entry - stopLoss| / pipUnitSpecA base quote ∧
    calculatePipsB base quote entry stopLoss =
      |entry - stopLoss| / pipUnitSpecB base quote := by
  constructor
  · unfold calculatePipsA pipUnitSpecA
    split_ifs <;> rfl
  · unfold calculatePipsB pipUnitSpecB
    split_ifs <;> rfl

/-!  C2.  The lot-size formula. -/

theorem jmul_some (a b : ℚ) : jmul (some a) (some b) = some (a * b) := rfl

theorem jdiv_some (a b : ℚ) (h : b ≠ 0) : jdiv (some a) (some b) = some (a / b) := by
  simp [jdiv, h]

theorem pipValueQuoteA_ne_zero (base quote : String) :
    pipValueQuoteA base quote ≠ 0 := by
  unfold pipValueQuoteA
  split_ifs <;> norm_num

theorem contractSize_ne_zero (base quote : String) :
    contractSize base quote ≠ 0 := by
  unfold contractSize
  split_ifs <;> norm_num

/-- Claim C2: with a positive pip count, a parsed balance `(bal, acct)`,
a parsed risk percentage `r` and a nonzero conversion rate, the result
record satisfies `riskAmount = bal × r / 100`,
`lotSize = riskAmount / (pips × pipValueQuote × rate × contractSize)`
and `positionSizeUnits = lotSize × contractSize`, where `contractSize`
is 100 for gold and 100000 otherwise. -/
theorem C2_lot_size_formula (rates : String → List (String × ℚ))
    (balanceInput riskInput base quote : String) (pips bal r : ℚ) (acct : String)
    (hbal : parseAccountBalanceA balanceInput = some (bal, acct))
    (hrisk : parseFloatJS riskInput = some r)
    (hpips : 0 < pips)
    (hrate : quoteToAccountRate rates quote acct ≠ 0) :
    ∃ res lot,
      calculateLotSizeA rates balanceInput riskInput base quote pips = some res ∧
      res.riskAmount = some (bal * r / 100) ∧
      lot = (bal * r / 100) /
        (pips * pipValueQuoteA base quote * quoteToAccountRate rates quote acct *
          contractSize base quote) ∧
      res.lotSize = some lot ∧
      res.positionSizeUnits = some (lot * contractSize base quote) := by
  have hden :
      pips * (pipValueQuoteA base quote * quoteToAccountRate rates quote acct) *
        contractSize base quote ≠ 0 :=
    mul_ne_zero
      (mul_ne_zero (ne_of_gt hpips)
        (mul_ne_zero (pipValueQuoteA_ne_zero base quote) hrate))
      (contractSize_ne_zero base quote)
  have hra : jdiv (jmul (some bal) (parseFloatJS riskInput)) (some 100) =
      some (bal * r / 100) := by
    rw [hrisk, jmul_some, jdiv_some _ _ (by norm_num)]
  have hlot :
      jdiv (some (bal * r / 100))
        (some (pips * (pipValueQuoteA base quote * quoteToAccountRate rates quote acct) *
          contractSize base quote)) =
      some ((bal * r / 100) /
        (pips * pipValueQuoteA base quote * quoteToAccountRate rates quote acct *
          contractSize base quote)) := by
    rw [jdiv_some _ _ hden,
      mul_assoc pips (pipValueQuoteA base quote) (quoteToAccountRate rates quote acct)]
  simp only [calculateLotSizeA, hbal, hra, hlot, jmul_some]
  exact ⟨_, _, rfl, rfl, rfl, rfl, rfl⟩

/-- Witness for C2, instantiated at the end-to-end example of the spec:
balance `"5000 USD"`, risk `"2"`, signal
`"Buy NZDCAD 0.81250, SL 0.81050"` (20 pips), conversion rate 0.62 to
USD — the lot size is exactly 25/31 ≈ 0.806. -/
theorem C2_lot_size_formula_witness :
    ∃ res lot,
      calculateLotSizeA (fun _ => [("USD", 0.62)]) "5000 USD" "2" "NZD" "CAD" 20 =
        some res ∧
      res.riskAmount = some 100 ∧
      res.lotSize = some lot ∧ lot = 25 / 31 ∧ |lot - 0.806| < 1 / 1000 ∧
      parseSignalA "Buy NZDCAD 0.81250, SL 0.81050" = .ok ("NZD", "CAD", 20) := by
  obtain ⟨res, lot, hcalc, hrisk, hlot, hls, hpos⟩ :=
    C2_lot_size_formula (fun _ => [("USD", 0.62)]) "5000 USD" "2" "NZD" "CAD"
      20 5000 2 "USD" (by decide) (by decide) (by norm_num) (by decide)
  have hval : lot = 25 / 31 := by rw [hlot]; decide
  refine ⟨res, lot, hcalc, ?_, hls, hval, ?_, by decide⟩
  · rw [hrisk]; norm_num
  · rw [hval]; decide

/-!  C3.  Explicit pip annotations.  The code computes
`pips || calculatePips(...)`: a parsed annotation of `0` is falsy in
JavaScript, so — contrary to the claim — a `"(0 pips)"` annotation does
not override the price-derived distance. -/

/-- Counterexample to claim C3: the signal
`"Buy EURUSD 1.05000, SL 1.04800 (0 pips)"` carries the parenthesized
integer annotation `0`, yet the pip count used for sizing is the
price-derived 20, not the annotated 0. -/
theorem C3_counterexample_zero_annotation :
    scanFirst pipsAt ("Buy EURUSD 1.05000, SL 1.04800 (0 pips)").toList = some 0 ∧
    parseSignalA "Buy EURUSD 1.05000, SL 1.04800 (0 pips)" =
      .ok ("EUR", "USD", 20) := by
  constructor
  · decide
  · decide

/-- Claim C3 as amended: whenever the annotation regex extracts a
nonzero pip count from the signal, that count is used for sizing in both
variants, unconditionally overriding the price-derived distance. -/
theorem C3_nonzero_annotation_overrides (text : String) (n : ℚ) (b q : String)
    (e sl : ℚ)
    (hp : scanFirst pipsAt text.toList = some n) (hn : n ≠ 0)
    (hi : scanFirst instrAt text.toList = some (b, q))
    (hsl : scanFirst slAt text.toList = some sl) :
    (scanFirst entryAtA text.toList = some e → parseSignalA text = .ok (b, q, n)) ∧
    (scanFirst entryAtB text.toList = some e → parseSignalB text = .ok (b, q, n)) := by
  constructor
  · intro he
    simp only [parseSignalA, hi, he, hsl, hp, jsOrQ, if_neg hn]
  · intro he
    simp only [parseSignalB, hi, he, hsl, hp, jsOrQ, if_neg hn]

/-- Witness for the amended C3 at the annotated signal
`"Buy EURUSD 1.05000, SL 1.04800 (15 pips)"`: the pip count used is 15
even though the price-derived distance is 20. -/
theorem C3_nonzero_annotation_overrides_witness :
    parseSignalA "Buy EURUSD 1.05000, SL 1.04800 (15 pips)" =
      .ok ("EUR", "USD", 15) :=
  (C3_nonzero_annotation_overrides "Buy EURUSD 1.05000, SL 1.04800 (15 pips)"
    15 "EUR" "USD" 1.05 1.048 (by decide) (by norm_num) (by decide) (by decide)).1
    (by decide)

/-!  C5.  Instrument extraction.  Both regex alternatives match exactly a
window of six consecutive letters (the `3+3` alternative does not allow
any separator between the two groups), so a signal writing the pair as
two separate tokens `"EUR USD"` is rejected, contrary to the claim. -/

/-- Counterexample to claim C5: the text
`"EUR USD Buy 1.10000 SL 1.09800"` contains two consecutive 3-letter
alphabetic tokens, yet instrument extraction fails (the whole parse
stops with `InvalidInstrument`). -/
theorem C5_counterexample_spaced_tokens :
    claimInstrShape "EUR USD Buy 1.10000 SL 1.09800" = true ∧
    scanFirst instrAt ("EUR USD Buy 1.10000 SL 1.09800").toList = none ∧
    parseSignalA "EUR USD Buy 1.10000 SL 1.09800" =
      .error .invalidInstrument := by
  refine ⟨by decide, by decide, by decide⟩

theorem matchAlphaN_isSome :
    ∀ l : Chars, (matchAlphaN 6 l).isSome = sixAlphaAt l := by
  have key : ∀ (n : Nat) (l : Chars),
      (matchAlphaN n l).isSome =
        (decide ((l.take n).length = n) && (l.take n).all isAlphaChar) := by
    intro n
    induction n with
    | zero => intro l; simp [matchAlphaN]
    | succ m ih =>
        intro l
        cases l with
        | nil => simp [matchAlphaN]
        | cons c cs =>
            simp only [matchAlphaN, List.take_succ_cons, List.length_cons,
              List.all_cons]
            by_cases hc : isAlphaChar c = true
            · rw [if_pos hc, hc, Bool.true_and]
              simp only [Option.isSome_map', Nat.add_right_cancel_iff]
              exact ih cs
            · simp only [Bool.not_eq_true] at hc
              rw [if_neg (by simp [hc]), hc]
              simp
  intro l
  exact key 6 l

theorem instrAt_eq_alpha_window (l : Chars) :
    instrAt l =
      (matchAlphaN 6 l).map fun p => (upStr (p.1.take 3), upStr (p.1.drop 3)) := by
  have h6 : matchAlphaN 6 l =
      (matchAlphaN 3 l).bind fun p =>
        (matchAlphaN 3 p.2).map fun q => (p.1 ++ q.1, q.2) :=
    matchAlphaN_add 3 3 l
  unfold instrAt instrAltTwo
  cases h1 : matchAlphaN 3 l with
  | none => rw [h6, h1]; rfl
  | some p =>
      cases h2 : matchAlphaN 3 p.2 with
      | none =>
          rw [h6, h1]
          simp [h2]
      | some q =>
          rw [h6, h1]
          have hp : p.1.length = 3 := matchAlphaN_length 3 l p.1 p.2 (by rw [h1])
          have htake : (p.1 ++ q.1).take 3 = p.1 := by
            rw [← hp]; exact List.take_left p.1 q.1
          have hdrop : (p.1 ++ q.1).drop 3 = q.1 := by
            rw [← hp]; exact List.drop_left p.1 q.1
          simp [h2, htake, hdrop]

/-- Claim C5 as amended: instrument extraction succeeds exactly when the
text contains six consecutive alphabetic characters (the two regex
alternatives recognize the same shape; no separator between the two
3-letter groups is allowed, and the window may sit inside a longer
word), and the extracted pair is the uppercased halves of the leftmost
such window. -/
theorem C5_instrument_six_letter_window (text : String) :
    (scanFirst instrAt text.toList).isSome = containsSixAlpha text.toList ∧
    scanFirst instrAt text.toList =
      (scanFirst (fun r => matchAlphaN 6 r) text.toList).map fun p =>
        (upStr (p.1.take 3), upStr (p.1.drop 3)) := by
  have heq : scanFirst instrAt text.toList =
      (scanFirst (fun r => matchAlphaN 6 r) text.toList).map fun p =>
        (upStr (p.1.take 3), upStr (p.1.drop 3)) := by
    rw [scanFirst_congr instrAt_eq_alpha_window]
    exact scanFirst_map_eq (fun r => matchAlphaN 6 r) _ text.toList
  refine ⟨?_, heq⟩
  rw [heq]
  generalize text.toList = l
  induction l with
  | nil => rfl
  | cons c cs ih =>
      simp only [scanFirst, containsSixAlpha]
      cases h : matchAlphaN 6 (c :: cs) with
      | some p =>
          have := matchAlphaN_isSome (c :: cs)
          rw [h] at this
          simp only [Option.isSome_some] at this
          simp [← this]
      | none =>
          have := matchAlphaN_isSome (c :: cs)
          rw [h] at this
          simp only [Option.isSome_none] at this
          simp only [← this, Bool.false_or]
          exact ih

/-!  C6.  Entry-price keywords.  The claim states one keyword list for
both variants; in fact the two variants have different keyword sets.
The `part_001` variant has no `Long`/`Short`, no bare `Entered` (only
the literal `Entered at`) and no `at`/`now` suffix forms, while the
`src/App.js` variant additionally recognizes `Enter at`, `Enter now`
and `Entered now`, which the claimed list omits. -/

/-- Counterexample to claim C6: `"Long EURUSD 1.05000 SL 1.04000"`
matches the claimed pattern (keyword `Long` in the alternate
action-keyword form), yet the `part_001` variant finds no entry price
and fails with `InvalidEntryPrice`. -/
theorem C6_counterexample_long_variantB :
    (claimEntryExtract "Long EURUSD 1.05000 SL 1.04000").isSome = true ∧
    scanFirst entryAtB ("Long EURUSD 1.05000 SL 1.04000").toList = none ∧
    parseSignalB "Long EURUSD 1.05000 SL 1.04000" = .error .invalidEntryPrice := by
  refine ⟨by decide, by decide, by decide⟩

/-- Claim C6 as amended: each variant applies its own keyword set.  On
the canonical one-keyword signals below, the `src/App.js` variant
recognizes every claimed keyword and additionally the `at`/`now`
suffix forms absent from the claimed list, while the `part_001` variant
recognizes only `Enter`, `Entry`, the literal `Entered at`, the limit
forms, `Buy` and `Sell`, rejecting `Long`, `Short`, bare `Entered` and
the `at`/`now` forms. -/
theorem C6_entry_keywords_per_variant :
    (scanFirst entryAtA ("Enter 1.05000").toList = some (21 / 20) ∧
     scanFirst entryAtA ("Entered 1.05000").toList = some (21 / 20) ∧
     scanFirst entryAtA ("Enter at 1.05000").toList = some (21 / 20) ∧
     scanFirst entryAtA ("Enter now 1.05000").toList = some (21 / 20) ∧
     scanFirst entryAtA ("Entered at 1.05000").toList = some (21 / 20) ∧
     scanFirst entryAtA ("Entered now 1.05000").toList = some (21 / 20) ∧
     scanFirst entryAtA ("Entry 1.05000").toList = some (21 / 20) ∧
     scanFirst entryAtA ("Entry (sell limit): 1.05000").toList = some (21 / 20) ∧
     scanFirst entryAtA ("Entry (buy limit): 1.05000").toList = some (21 / 20) ∧
     scanFirst entryAtA ("Buy 1.05000").toList = some (21 / 20) ∧
     scanFirst entryAtA ("Sell 1.05000").toList = some (21 / 20) ∧
     scanFirst entryAtA ("Long 1.05000").toList = some (21 / 20) ∧
     scanFirst entryAtA ("Short 1.05000").toList = some (21 / 20) ∧
     scanFirst entryAtA ("Long EURUSD 1.05000").toList = some (21 / 20)) ∧
    (scanFirst entryAtB ("Enter 1.05000").toList = some (21 / 20) ∧
     scanFirst entryAtB ("Entry 1.05000").toList = some (21 / 20) ∧
     scanFirst entryAtB ("Entered at 1.05000").toList = some (21 / 20) ∧
     scanFirst entryAtB ("Entry (sell limit): 1.05000").toList = some (21 / 20) ∧
     scanFirst entryAtB ("Buy 1.05000").toList = some (21 / 20) ∧
     scanFirst entryAtB ("Sell 1.05000").toList = some (21 / 20) ∧
     scanFirst entryAtB ("Buy EURUSD 1.05000").toList = some (21 / 20)) ∧
    (scanFirst entryAtB ("Long 1.05000").toList = none ∧
     scanFirst entryAtB ("Short 1.05000").toList = none ∧
     scanFirst entryAtB ("Entered 1.05000").toList = none ∧
     scanFirst entryAtB ("Enter now 1.05000").toList = none) ∧
    (claimEntryExtract "Enter now 1.05000" = none ∧
     claimEntryExtract "Enter at 1.05000" = none ∧
     claimEntryExtract "Entered now 1.05000" = none) := by
  exact ⟨by decide, by decide, by decide, by decide⟩

/-!  C7.  Balance parsing. -/

theorem matchNumber_none_of_not_digit {c : Char} {cs : Chars}
    (hc : isDigitChar c = false) : matchNumber (c :: cs) = none := by
  unfold matchNumber
  simp [List.takeWhile_cons, hc]

theorem matchNumber_isSome_of_digit {c : Char} {cs : Chars}
    (hc : isDigitChar c = true) : (matchNumber (c :: cs)).isSome = true := by
  unfold matchNumber
  simp only [List.takeWhile_cons, hc, if_true]
  rw [if_neg (List.cons_ne_nil _ _)]
  split <;> rfl

theorem balanceAtA_isSome (l : Chars) :
    (balanceAtA l).isSome = (matchNumber l).isSome := by
  unfold balanceAtA
  cases h : matchNumber l with
  | none => rfl
  | some p =>
      simp only [Option.isSome_some]
      split <;> rfl

theorem scanFirst_balanceA_any (l : Chars) :
    (scanFirst balanceAtA l).isSome = l.any isDigitChar := by
  induction l with
  | nil => rfl
  | cons c cs ih =>
      simp only [scanFirst, List.any_cons]
      by_cases hc : isDigitChar c = true
      · have h1 : (balanceAtA (c :: cs)).isSome = true := by
          rw [balanceAtA_isSome]; exact matchNumber_isSome_of_digit hc
        cases hb : balanceAtA (c :: cs) with
        | none => rw [hb] at h1; cases h1
        | some v => simp [hb, hc]
      · simp only [Bool.not_eq_true] at hc
        have h0 : balanceAtA (c :: cs) = none := by
          unfold balanceAtA
          rw [matchNumber_none_of_not_digit hc]
        rw [h0]
        simp [hc, ih]

/-- Claim C7: the permissive `src/App.js` balance parser fails exactly
when the input holds no digit; when the three-letter code is absent it
consistently defaults the currency to `"USD"`, while the earlier
`part_001` parser fails outright on a missing code — as on the claimed
examples `"1000 USD"` and `"1000"`. -/
theorem C7_balance_policy :
    (∀ input : String,
      (parseAccountBalanceA input).isSome = input.toList.any isDigitChar) ∧
    (∀ (l : Chars) (v : ℚ) (r : Chars), matchNumber l = some (v, r) →
      matchAlphaN 3 (r.dropWhile isWS) = none → balanceAtA l = some (v, "USD")) ∧
    parseAccountBalanceA "1000 USD" = some (1000, "USD") ∧
    parseAccountBalanceA "1000" = some (1000, "USD") ∧
    parseAccountBalanceB "1000 USD" = some (1000, "USD") ∧
    parseAccountBalanceB "1000" = none := by
  refine ⟨?_, ?_, by decide, by decide, by decide, by decide⟩
  · intro input
    exact scanFirst_balanceA_any input.toList
  · intro l v r hm ha
    unfold balanceAtA
    rw [hm]
    simp only []
    rw [ha]

/-- Witness for C7: the universal parts applied at concrete inputs — a
digit-free balance text fails, and a bare number with no code after it
defaults to USD. -/
theorem C7_balance_policy_witness :
    balanceAtA ("1000" : String).toList = some (1000, "USD") ∧
    (parseAccountBalanceA "abc").isSome = false :=
  ⟨C7_balance_policy.2.1 ("1000" : String).toList 1000 [] (by decide) (by decide),
   by rw [C7_balance_policy.1 "abc"]; decide⟩

/-!  C8.  Exchange-rate fallback. -/

/-- Claim C8: when the rate response has no entry for the account
currency the conversion rate silently defaults to 1 and the calculation
still yields a result; when the quote currency equals the account
currency the rate is 1 and the calculation never consults the rate
environment at all. -/
theorem C8_rate_fallback (rates : String → List (String × ℚ))
    (balanceInput riskInput base quote : String) (pips bal : ℚ) (acct : String)
    (hbal : parseAccountBalanceA balanceInput = some (bal, acct)) :
    (List.lookup acct (rates quote) = none →
      quoteToAccountRate rates quote acct = 1 ∧
      (calculateLotSizeA rates balanceInput riskInput base quote pips).isSome =
        true) ∧
    (quote = acct →
      quoteToAccountRate rates quote acct = 1 ∧
      ∀ rates2 : String → List (String × ℚ),
        calculateLotSizeA rates balanceInput riskInput base quote pips =
          calculateLotSizeA rates2 balanceInput riskInput base quote pips) := by
  constructor
  · intro hlk
    constructor
    · unfold quoteToAccountRate
      by_cases hqa : quote = acct
      · rw [if_pos hqa]
      · rw [if_neg hqa, hlk]
    · simp only [calculateLotSizeA, hbal]
      rfl
  · intro hqa
    have h1 : quoteToAccountRate rates quote acct = 1 := by
      unfold quoteToAccountRate; rw [if_pos hqa]
    refine ⟨h1, ?_⟩
    intro rates2
    have h2 : quoteToAccountRate rates2 quote acct = 1 := by
      unfold quoteToAccountRate; rw [if_pos hqa]
    simp only [calculateLotSizeA, hbal, h1, h2]

/-- Witness for C8: with an empty rate response, pair AUD/NZD and a USD
account, the rate defaults to 1 and a result is produced. -/
theorem C8_rate_fallback_witness :
    quoteToAccountRate (fun _ => []) "NZD" "USD" = 1 ∧
    (calculateLotSizeA (fun _ => []) "5000 USD" "2" "AUD" "NZD" 20).isSome =
      true :=
  (C8_rate_fallback (fun _ => []) "5000 USD" "2" "AUD" "NZD" 20 5000 "USD"
    (by decide)).1 (by decide)

/-!  C9.  Lot-tier round-trip.  The three tiers are each rounded to four
decimals independently from the unrounded lot size, so the claimed
tolerance of 1e-4 is wrong: rounding `lotSize` can move `standardLots`
by up to 0.5e-4, which scales to 5e-4 (respectively 5e-3) before being
compared against `miniLots` (respectively `microLots`). -/

theorem round4_close (x : ℚ) : |round4 x - x| ≤ 1 / 20000 := by
  unfold round4
  have h : ((round (x * 10000) : ℤ) : ℚ) / 10000 - x =
      (((round (x * 10000) : ℤ) : ℚ) - x * 10000) / 10000 := by ring
  rw [h, abs_div, abs_of_pos (by norm_num : (0 : ℚ) < 10000)]
  have hb : |((round (x * 10000) : ℤ) : ℚ) - x * 10000| ≤ 1 / 2 := by
    rw [abs_sub_comm]
    exact abs_sub_round (x * 10000)
  calc |((round (x * 10000) : ℤ) : ℚ) - x * 10000| / 10000
      ≤ (1 / 2) / 10000 := by
        exact (div_le_div_iff_of_pos_right (by norm_num)).mpr hb
    _ = 1 / 20000 := by norm_num

theorem round4_scale_bound (x : ℚ) :
    |round4 x * 10 - round4 (x * 10)| ≤ 11 / 20000 ∧
    |round4 x * 100 - round4 (x * 100)| ≤ 101 / 20000 := by
  have h2 := round4_close x
  constructor
  · have h1 : |round4 x * 10 - x * 10| = |round4 x - x| * 10 := by
      rw [← sub_mul, abs_mul, abs_of_pos (by norm_num : (0 : ℚ) < 10)]
    have h3 := round4_close (x * 10)
    calc |round4 x * 10 - round4 (x * 10)|
        ≤ |round4 x * 10 - x * 10| + |x * 10 - round4 (x * 10)| :=
          abs_sub_le _ _ _
      _ = |round4 x - x| * 10 + |round4 (x * 10) - x * 10| := by
          rw [h1, abs_sub_comm (x * 10) (round4 (x * 10))]
      _ ≤ (1 / 20000) * 10 + 1 / 20000 :=
          add_le_add (mul_le_mul_of_nonneg_right h2 (by norm_num)) h3
      _ ≤ 11 / 20000 := by norm_num
  · have h1 : |round4 x * 100 - x * 100| = |round4 x - x| * 100 := by
      rw [← sub_mul, abs_mul, abs_of_pos (by norm_num : (0 : ℚ) < 100)]
    have h3 := round4_close (x * 100)
    calc |round4 x * 100 - round4 (x * 100)|
        ≤ |round4 x * 100 - x * 100| + |x * 100 - round4 (x * 100)| :=
          abs_sub_le _ _ _
      _ = |round4 x - x| * 100 + |round4 (x * 100) - x * 100| := by
          rw [h1, abs_sub_comm (x * 100) (round4 (x * 100))]
      _ ≤ (1 / 20000) * 100 + 1 / 20000 :=
          add_le_add (mul_le_mul_of_nonneg_right h2 (by norm_num)) h3
      _ ≤ 101 / 20000 := by norm_num

/-- Counterexample to claim C9: balance `"1 USD"`, risk `"0.04"`, signal
`"Buy EURUSD 1.00010, SL 1.00000"` give the unrounded lot size 0.00004;
`standardLots` rounds to 0 while `miniLots` rounds to 0.0004 and
`microLots` to 0.004, so both round-trip gaps exceed the claimed 1e-4
tolerance. -/
theorem C9_counterexample_small_lot :
    runCalcA (fun _ => []) "1 USD" "0.04" "Buy EURUSD 1.00010, SL 1.00000" =
      .ok { riskAmount := some (1 / 2500), lotSize := some (1 / 25000),
            positionSizeUnits := some 4, standardLots := some 0,
            miniLots := some (1 / 2500), microLots := some (1 / 250),
            accountCurrency := "USD" } ∧
    ¬(|(0 : ℚ) * 10 - 1 / 2500| ≤ 1 / 10000) ∧
    ¬(|(0 : ℚ) * 100 - 1 / 250| ≤ 1 / 10000) := by
  refine ⟨by decide, by decide, by decide⟩

/-- Claim C9 as amended: for every result of the calculation, the
round-trip identities hold within tolerance 5.5e-4 for
`standardLots × 10` against `miniLots` and 5.05e-3 for
`standardLots × 100` against `microLots` (the tight bounds from
rounding each tier independently at four decimals). -/
theorem C9_lot_tier_round_trip (rates : String → List (String × ℚ))
    (balanceInput riskInput base quote : String) (pips s m mc : ℚ)
    (res : CalcResult)
    (h : calculateLotSizeA rates balanceInput riskInput base quote pips =
      some res)
    (hs : res.standardLots = some s) (hm : res.miniLots = some m)
    (hc : res.microLots = some mc) :
    |s * 10 - m| ≤ 11 / 20000 ∧ |s * 100 - mc| ≤ 101 / 20000 := by
  cases hb : parseAccountBalanceA balanceInput with
  | none =>
      unfold calculateLotSizeA at h
      rw [hb] at h
      cases h
  | some p =>
      obtain ⟨bal, acct⟩ := p
      unfold calculateLotSizeA at h
      rw [hb] at h
      simp only [] at h
      cases h
      dsimp only at hs hm hc
      cases hlot : jdiv (jdiv (jmul (some bal) (parseFloatJS riskInput)) (some 100))
          (some (pips * (pipValueQuoteA base quote *
            quoteToAccountRate rates quote acct) * contractSize base quote)) with
      | none =>
          rw [hlot] at hs
          cases hs
      | some L =>
          rw [hlot] at hs hm hc
          simp only [jround4, jmul_some, Option.map_some', Option.some.injEq]
            at hs hm hc
          subst hs
          subst hm
          subst hc
          exact round4_scale_bound L

/-- Witness for the amended C9 at balance `"5000 USD"`, risk `"2"`,
EURUSD, 20 pips: the lot size is 0.5, the tiers are 0.5, 5 and 50, and
both round-trip gaps (here exactly 0) satisfy the bounds. -/
theorem C9_lot_tier_round_trip_witness :
    |(1 : ℚ) / 2 * 10 - 5| ≤ 11 / 20000 ∧
    |(1 : ℚ) / 2 * 100 - 50| ≤ 101 / 20000 :=
  C9_lot_tier_round_trip (fun _ => []) "5000 USD" "2" "EUR" "USD" 20
    (1 / 2) 5 50
    { riskAmount := some 100, lotSize := some (1 / 2),
      positionSizeUnits := some 50000, standardLots := some (1 / 2),
      miniLots := some 5, microLots := some 50, accountCurrency := "USD" }
    (by decide) (by decide) (by decide) (by decide)

/-!  C10.  The risk-percentage field is never validated. -/

/-- Claim C10: for every risk-percentage string — empty, non-numeric,
negative, zero or out of range — the calculation still produces a
result whose `riskAmount` is `balance × parseFloat(risk) / 100`; an
unparsable risk (NaN) flows into every numeric output field, and no
error is ever signalled. -/
theorem C10_risk_never_validated (riskInput : String)
    (rates : String → List (String × ℚ))
    (balanceInput base quote : String) (pips bal : ℚ) (acct : String)
    (hbal : parseAccountBalanceA balanceInput = some (bal, acct)) :
    ∃ res,
      calculateLotSizeA rates balanceInput riskInput base quote pips =
        some res ∧
      res.riskAmount = (parseFloatJS riskInput).map (fun r => bal * r / 100) ∧
      (parseFloatJS riskInput = none →
        res.riskAmount = none ∧ res.lotSize = none ∧
        res.positionSizeUnits = none ∧ res.standardLots = none ∧
        res.miniLots = none ∧ res.microLots = none) := by
  simp only [calculateLotSizeA, hbal]
  refine ⟨_, rfl, ?_, ?_⟩
  · cases hr : parseFloatJS riskInput with
    | none => simp [jmul, jdiv]
    | some r =>
        rw [jmul_some, jdiv_some _ _ (by norm_num : ((100 : ℚ)) ≠ 0)]
        rfl
  · intro hr
    rw [hr]
    simp [jmul, jdiv, jround4]

/-- Witness for C10 at the empty risk string: `parseFloat("")` is NaN,
yet a result is produced with every numeric field non-finite. -/
theorem C10_risk_never_validated_witness :
    ∃ res,
      calculateLotSizeA (fun _ => []) "1000 USD" "" "EUR" "USD" 20 =
        some res ∧
      res.riskAmount = (parseFloatJS "").map (fun r => (1000 : ℚ) * r / 100) ∧
      (parseFloatJS "" = none →
        res.riskAmount = none ∧ res.lotSize = none ∧
        res.positionSizeUnits = none ∧ res.standardLots = none ∧
        res.miniLots = none ∧ res.microLots = none) :=
  C10_risk_never_validated "" (fun _ => []) "1000 USD" "EUR" "USD" 20 1000
    "USD" (by decide)

end Forex
